import Mathlib

/-!
Verification of the channel-bus / master-slave configuration pipeline
(custom nodes for a graph-based authoring tool).

The development shallowly embeds the Python sources:
  * `global_channels.py`  - the lock-protected global channel bus;
  * `channel.py`          - the channel-variant Sender/Receiver pair;
  * `Project_Master_Controller.py` / `Master_Slave.py`
                          - aggregation, archival and slave distribution;
  * `Sender_Node.py` / `Receiver_Node.py`
                          - the cache-file variant with SHA-256 checksums;
  * `01_Background/01_Background_Setting_Node.py`
                          - per-category dynamic input-schema synthesis.

Python dictionaries with string keys are modelled as association lists
(`Dict`), JSON-serialisable values as the inductive `JValue`, in-memory
stores as functions `String → Option Dict`, the file system as explicit
record states, and `datetime.now()` as an explicit timestamp parameter.
Fallible operations (Python statements that can raise) return `Except`.
-/

/-- JSON-style values: the universe of data carried between the nodes.
Python floats occurring as literals in the sources are carried as their
decimal representation (`jfloat`); no arithmetic is ever performed on them. -/
inductive JValue where
  | jnull
  | jbool (b : Bool)
  | jint (n : Int)
  | jfloat (r : String)
  | jstr (s : String)
  | jarr (xs : List JValue)
  | jobj (kvs : List (String × JValue))

/-- Python `v == s` for a string literal `s` (equality across types is `False`). -/
def jeqStr (v : JValue) (s : String) : Bool :=
  match v with
  | .jstr s0 => s0 = s
  | _ => false

/-- A Python dict with string keys, in insertion order. -/
abbrev Dict := List (String × JValue)

/-- Key lookup in a dict (Python `d[k]` / `k in d`). -/
def jlookup : Dict → String → Option JValue
  | [], _ => none
  | (k, v) :: rest, key => if k = key then some v else jlookup rest key

/-- Python `d.get(k, default)`. -/
def dgetD (d : Dict) (k : String) (dv : JValue) : JValue :=
  (jlookup d k).getD dv

/-- Truthiness of a value (Python `bool(v)`). -/
def jtruthy : JValue → Bool
  | .jnull => false
  | .jbool b => b
  | .jint n => n != 0
  | .jfloat r => !(r = "0.0" || r = "-0.0")
  | .jstr s => !(s = "")
  | .jarr xs => !xs.isEmpty
  | .jobj kvs => !kvs.isEmpty

/-- Python `dict[k] = v`: replace in place, or append a new key at the end. -/
def dictSet : Dict → String → JValue → Dict
  | [], k, v => [(k, v)]
  | (k0, v0) :: rest, k, v =>
      if k0 = k then (k, v) :: rest else (k0, v0) :: dictSet rest k v

/-- Python `d.update(u)`: each key of `u`, in order, is written into `d`. -/
def dictUpdate (d u : Dict) : Dict :=
  u.foldl (fun acc kv => dictSet acc kv.1 kv.2) d

/-- Python attribute access `v.get ...` on a value that must be a dict;
anything else raises (`AttributeError`). -/
def pyGetD (v : JValue) (k : String) (dv : JValue) : Except String JValue :=
  match v with
  | .jobj kvs => .ok (dgetD kvs k dv)
  | _ => .error "AttributeError"

/-! ### UTF-8 and SHA-256 (`hashlib.sha256(x.encode()).hexdigest()`) -/

/-- UTF-8 encoding of a single code point, as byte values. -/
def utf8Enc (c : Nat) : List Nat :=
  if c < 128 then [c]
  else if c < 2048 then [192 + c / 64, 128 + c % 64]
  else if c < 65536 then [224 + c / 4096, 128 + c / 64 % 64, 128 + c % 64]
  else [240 + c / 262144, 128 + c / 4096 % 64, 128 + c / 64 % 64, 128 + c % 64]

/-- UTF-8 bytes of a string (Python `s.encode()`). -/
def strBytes (s : String) : List Nat :=
  (s.data.map (fun ch => utf8Enc ch.toNat)).foldr (· ++ ·) []

/-- Truncation to a 32-bit word. -/
def w32 (n : Nat) : Nat := n % 4294967296

/-- 32-bit rotate right. -/
def rotr (k n : Nat) : Nat := w32 (n / 2 ^ k + n % 2 ^ k * 2 ^ (32 - k))

/-- 32-bit bitwise complement of a word below `2^32`. -/
def notw (n : Nat) : Nat := 4294967295 - n

def shaCh (x y z : Nat) : Nat := Nat.xor (Nat.land x y) (Nat.land (notw (w32 x)) z)

def shaMaj (x y z : Nat) : Nat :=
  Nat.xor (Nat.xor (Nat.land x y) (Nat.land x z)) (Nat.land y z)

def bsig0 (x : Nat) : Nat := Nat.xor (Nat.xor (rotr 2 x) (rotr 13 x)) (rotr 22 x)

def bsig1 (x : Nat) : Nat := Nat.xor (Nat.xor (rotr 6 x) (rotr 11 x)) (rotr 25 x)

def ssig0 (x : Nat) : Nat := Nat.xor (Nat.xor (rotr 7 x) (rotr 18 x)) (x / 8)

def ssig1 (x : Nat) : Nat := Nat.xor (Nat.xor (rotr 17 x) (rotr 19 x)) (x / 1024)

/-- The 64 SHA-256 round constants (decimal). -/
def K256 : List Nat :=
  [1116352408, 1899447441, 3049323471, 3921009573,
   961987163, 1508970993, 2453635748, 2870763221,
   3624381080, 310598401, 607225278, 1426881987,
   1925078388, 2162078206, 2614888103, 3248222580,
   3835390401, 4022224774, 264347078, 604807628,
   770255983, 1249150122, 1555081692, 1996064986,
   2554220882, 2821834349, 2952996808, 3210313671,
   3336571891, 3584528711, 113926993, 338241895,
   666307205, 773529912, 1294757372, 1396182291,
   1695183700, 1986661051, 2177026350, 2456956037,
   2730485921, 2820302411, 3259730800, 3345764771,
   3516065817, 3600352804, 4094571909, 275423344,
   430227734, 506948616, 659060556, 883997877,
   958139571, 1322822218, 1537002063, 1747873779,
   1955562222, 2024104815, 2227730452, 2361852424,
   2428436474, 2756734187, 3204031479, 3329325298]

/-- Running state of the hash: eight 32-bit words. -/
structure Hash8 where
  a : Nat
  b : Nat
  c : Nat
  d : Nat
  e : Nat
  f : Nat
  g : Nat
  h : Nat

/-- SHA-256 initial hash value (decimal). -/
def initH : Hash8 :=
  ⟨1779033703, 3144134277, 1013904242, 2773480762,
   1359893119, 2600822924, 528734635, 1541459225⟩

/-- One compression round. -/
def shaRound (st : Hash8) (kw : Nat × Nat) : Hash8 :=
  let t1 := w32 (st.h + bsig1 st.e + shaCh st.e st.f st.g + kw.1 + kw.2)
  let t2 := w32 (bsig0 st.a + shaMaj st.a st.b st.c)
  ⟨w32 (t1 + t2), st.a, st.b, st.c, w32 (st.d + t1), st.e, st.f, st.g⟩

/-- Big-endian 64-bit length field of the padding. -/
def be64 (n : Nat) : List Nat :=
  [n / 2 ^ 56 % 256, n / 2 ^ 48 % 256, n / 2 ^ 40 % 256, n / 2 ^ 32 % 256,
   n / 2 ^ 24 % 256, n / 2 ^ 16 % 256, n / 2 ^ 8 % 256, n % 256]

/-- SHA-256 message padding. -/
def sha256Pad (msg : List Nat) : List Nat :=
  let r := (msg.length + 1) % 64
  let z := (56 + 64 - r) % 64
  msg ++ [128] ++ List.replicate z 0 ++ be64 (8 * msg.length)

/-- Split the padded message into 64-byte blocks. -/
def chunk64 (l : List Nat) : List (List Nat) :=
  match l with
  | [] => []
  | x :: xs => (x :: xs).take 64 :: chunk64 ((x :: xs).drop 64)
termination_by l.length
decreasing_by simp; omega

/-- Big-endian 32-bit words of a block. -/
def beWords : List Nat → List Nat
  | b0 :: b1 :: b2 :: b3 :: rest =>
      (b0 * 16777216 + b1 * 65536 + b2 * 256 + b3) :: beWords rest
  | _ => []

/-- Extend the message schedule; `rws` holds the words produced so far,
most recent first. -/
def schedExt (rws : List Nat) : Nat → List Nat
  | 0 => rws
  | k + 1 =>
      schedExt
        (w32 (ssig1 (rws.getD 1 0) + rws.getD 6 0 + ssig0 (rws.getD 14 0) +
              rws.getD 15 0) :: rws) k

/-- The 64-entry message schedule of one block. -/
def sched (block : List Nat) : List Nat :=
  (schedExt (beWords block).reverse 48).reverse

/-- Compress one 64-byte block into the running hash. -/
def compressBlock (h0 : Hash8) (block : List Nat) : Hash8 :=
  let st := (K256.zip (sched block)).foldl shaRound h0
  ⟨w32 (h0.a + st.a), w32 (h0.b + st.b), w32 (h0.c + st.c), w32 (h0.d + st.d),
   w32 (h0.e + st.e), w32 (h0.f + st.f), w32 (h0.g + st.g), w32 (h0.h + st.h)⟩

/-- SHA-256 of a byte sequence. -/
def sha256Hash (msg : List Nat) : Hash8 :=
  (chunk64 (sha256Pad msg)).foldl compressBlock initH

/-- A lowercase hexadecimal digit. -/
def hexDigit (d : Nat) : Char :=
  if d < 10 then Char.ofNat (48 + d) else Char.ofNat (87 + d)

/-- A 32-bit word as exactly eight lowercase hex digits. -/
def toHex8 (n : Nat) : String :=
  String.mk
    [hexDigit (n / 268435456 % 16), hexDigit (n / 16777216 % 16),
     hexDigit (n / 1048576 % 16), hexDigit (n / 65536 % 16),
     hexDigit (n / 4096 % 16), hexDigit (n / 256 % 16),
     hexDigit (n / 16 % 16), hexDigit (n % 16)]

/-- Python `hashlib.sha256(s.encode()).hexdigest()`. -/
def sha256Hex (s : String) : String :=
  let d := sha256Hash (strBytes s)
  toHex8 d.a ++ toHex8 d.b ++ toHex8 d.c ++ toHex8 d.d ++
  toHex8 d.e ++ toHex8 d.f ++ toHex8 d.g ++ toHex8 d.h

/-! ### `json.dumps` -/

/-- A four-digit hex escape body. -/
def hex4 (n : Nat) : String :=
  String.mk
    [hexDigit (n / 4096 % 16), hexDigit (n / 256 % 16),
     hexDigit (n / 16 % 16), hexDigit (n % 16)]

/-- Escaping of one character inside a JSON string literal, mirroring
`json.dumps`; `ascii` selects `ensure_ascii=True` behaviour. -/
def escChar (ascii : Bool) (c : Char) : String :=
  if c = '"' then "\\\""
  else if c = '\\' then "\\\\"
  else if c = '\n' then "\\n"
  else if c = '\r' then "\\r"
  else if c = '\t' then "\\t"
  else if c.toNat = 8 then "\\b"
  else if c.toNat = 12 then "\\f"
  else if c.toNat < 32 then "\\u" ++ hex4 c.toNat
  else if ascii && 126 < c.toNat then
    if c.toNat < 65536 then "\\u" ++ hex4 c.toNat
    else
      "\\u" ++ hex4 (55296 + (c.toNat - 65536) / 1024) ++
      "\\u" ++ hex4 (56320 + (c.toNat - 65536) % 1024)
  else String.singleton c

/-- A JSON string literal. -/
def quoteStr (ascii : Bool) (s : String) : String :=
  "\"" ++ String.join (s.data.map (escChar ascii)) ++ "\""

/-- Rendering of one already-serialised key/value pair
(`json.dumps` default item separator `": "`). -/
def renderPair (ascii : Bool) (p : String × String) : String :=
  quoteStr ascii p.1 ++ ": " ++ p.2

/-- The key order `sort_keys=True` produces (Python `sorted` is keyed by the
string key; with unique keys any stable sort yields the same list). -/
def keyLe (a b : String × String) : Prop := a.1 ≤ b.1

instance : DecidableRel keyLe := fun a b => decidable_of_iff (a.1 ≤ b.1) Iff.rfl

instance : IsTotal (String × String) keyLe := ⟨fun a b => le_total a.1 b.1⟩

instance : IsTrans (String × String) keyLe := ⟨fun _ _ _ h1 h2 => le_trans h1 h2⟩

/-- Key sorting of the serialised pairs of an object, applied only when
`sort_keys=True`. -/
def sortPairs (sortKeys : Bool) (ps : List (String × String)) :
    List (String × String) :=
  if sortKeys then List.insertionSort keyLe ps else ps

/-- Python `json.dumps` of an integer. -/
def intRepr (n : Int) : String := toString n

mutual

/-- Python `json.dumps(v, sort_keys, ensure_ascii)` with the default
separators `", "` and `": "`. -/
def serializeV (sortKeys ascii : Bool) : JValue → String
  | .jnull => "null"
  | .jbool b => cond b "true" "false"
  | .jint n => intRepr n
  | .jfloat r => r
  | .jstr s => quoteStr ascii s
  | .jarr xs => "[" ++ String.intercalate ", " (serializeL sortKeys ascii xs) ++ "]"
  | .jobj kvs =>
      "\x7b" ++
      String.intercalate ", "
        ((sortPairs sortKeys (serializeP sortKeys ascii kvs)).map
          (renderPair ascii)) ++
      "\x7d"

/-- Serialised elements of a JSON array, in order. -/
def serializeL (sortKeys ascii : Bool) : List JValue → List String
  | [] => []
  | x :: xs => serializeV sortKeys ascii x :: serializeL sortKeys ascii xs

/-- Pairs `(key, serialised value)` of a JSON object, in insertion order. -/
def serializeP (sortKeys ascii : Bool) :
    List (String × JValue) → List (String × String)
  | [] => []
  | (k, v) :: kvs => (k, serializeV sortKeys ascii v) :: serializeP sortKeys ascii kvs

end

/-- `json.dumps(data, sort_keys=True, ensure_ascii=False)`: the canonical
serialisation hashed by the Sender and Receiver checksum code. -/
def dumpsSorted (v : JValue) : String := serializeV true false v

/-- `json.dumps(data)` with default flags (`ensure_ascii=True`): the
serialisation used for the Sender payload-size check. -/
def dumpsAscii (v : JValue) : String := serializeV false true v

/-! ### `global_channels.py` -/

/-- The global channel store `GLOBAL_CHANNEL_DATA` (a dict from channel name
to the last packed record).  The lock serialises accesses, so the sequential
state-transformer semantics below is the behaviour under any interleaving. -/
def ChannelBus := String → Option Dict

/-- `set_channel_data(channel_name, data)`:
`GLOBAL_CHANNEL_DATA[channel_name] = data`. -/
def set_channel_data (bus : ChannelBus) (channel_name : String) (data : Dict) :
    ChannelBus :=
  fun key => if key = channel_name then some data else bus key

/-- `get_channel_data(channel_name)`: returns
`GLOBAL_CHANNEL_DATA.get(channel_name)` and leaves the store as it is. -/
def get_channel_data (bus : ChannelBus) (channel_name : String) :
    Option Dict × ChannelBus :=
  (bus channel_name, bus)

/-- One bus access issued by some caller. -/
inductive BusOp where
  | setOp (channel : String) (data : Dict)
  | getOp (channel : String)

/-- The store after executing one operation. -/
def applyOp (bus : ChannelBus) : BusOp → ChannelBus
  | .setOp c d => set_channel_data bus c d
  | .getOp c => (get_channel_data bus c).2

/-- The store after a sequence of operations. -/
def runOps (bus : ChannelBus) (ops : List BusOp) : ChannelBus :=
  ops.foldl applyOp bus

/-- Whether an operation writes the given channel. -/
def isSetOn (channel : String) : BusOp → Bool
  | .setOp c _ => c = channel
  | .getOp _ => false

/-! ### `channel.py` (channel-variant Sender/Receiver) -/

/-- The module-level store `INTERNAL_STORAGE` of `channel.py`. -/
def Store := String → Option Dict

/-- `SenderNode.execute_transmission`: stores `MASTER_DATA` under `CHANNEL`
and returns it. -/
def execute_transmission (MASTER_DATA : Dict) (CHANNEL : String) (st : Store) :
    Dict × Store :=
  (MASTER_DATA, fun key => if key = CHANNEL then some MASTER_DATA else st key)

/-- The nine outputs of the channel-variant `ReceiverNode`, in declared order:
`01_Background, 02_Equipment, 03_Character, 04_Structure, 05_SpecialEffects,
06_Audio, PROJECT_INFO, PROJECT_NAME, ASSET_ROOT`. -/
structure RecvOutput where
  o1 : JValue
  o2 : JValue
  o3 : JValue
  o4 : JValue
  o5 : JValue
  o6 : JValue
  info : JValue
  pname : JValue
  proot : JValue

/-- The all-empty output returned when no (truthy) data is stored. -/
def noneRecvOutput : RecvOutput :=
  ⟨.jobj [], .jobj [], .jobj [], .jobj [], .jobj [], .jobj [],
   .jobj [], .jstr "NONE", .jstr "NONE"⟩

/-- `ReceiverNode.execute_reception`: loads the channel, returns the all-empty
tuple when the value is absent or falsy, otherwise decomposes it by the
`ProjectMasterController` record structure. -/
def execute_reception (CHANNEL : String) (st : Store) :
    Except String RecvOutput :=
  match st CHANNEL with
  | none => .ok noneRecvOutput
  | some data =>
      if data.isEmpty then .ok noneRecvOutput
      else
        let info := dgetD data "project_info" (.jobj [])
        let settings := dgetD data "settings" (.jobj [])
        do
          let o1 ← pyGetD settings "01_Background" (.jobj [])
          let o2 ← pyGetD settings "02_Equipment" (.jobj [])
          let o3 ← pyGetD settings "03_Character" (.jobj [])
          let o4 ← pyGetD settings "04_Structure" (.jobj [])
          let o5 ← pyGetD settings "05_SpecialEffects" (.jobj [])
          let o6 ← pyGetD settings "06_Audio" (.jobj [])
          let nm ← pyGetD info "name" (.jstr "Unknown")
          let rt ← pyGetD info "root" (.jstr "")
          .ok ⟨o1, o2, o3, o4, o5, o6, info, nm, rt⟩

/-! ### Master Controller (`Project_Master_Controller.py`, `Master_Slave.py`) -/

/-- `os.path.join` for the paths composed here. -/
def joinPath (a b : String) : String := a ++ "/" ++ b

/-- The archive area of the file system: the contents of every
`archiving_list.txt` (as `(path, line)` appends, in order) and of every file
under an `archive_dictionary` directory (as `(path, dumped record)`). -/
structure ArchiveFS where
  listLines : List (String × String)
  files : List (String × Dict)

/-- Writing a file with mode `"w"`: replaces the existing content, or creates
the file. -/
def upsertFile : List (String × Dict) → String → Dict → List (String × Dict)
  | [], n, c => [(n, c)]
  | (n0, c0) :: rest, n, c =>
      if n0 = n then (n, c) :: rest else (n0, c0) :: upsertFile rest n c

/-- The dict entry contributed by one optional category input: nothing when
the input is absent (`None`), one key otherwise. -/
def optEntry (name : String) (b : Option Dict) : Dict :=
  match b with
  | some d => [(name, JValue.jobj d)]
  | none => []

/-- The `settings` dict built from the six optional category inputs
(`{k: v for k, v in kwargs.items() if v is not None}`; the host passes the
optional inputs in declared order). -/
def mkSettings (b1 b2 b3 b4 b5 b6 : Option Dict) : Dict :=
  optEntry "01_Background" b1 ++ optEntry "02_Equipment" b2 ++
  optEntry "03_Character" b3 ++ optEntry "04_Structure" b4 ++
  optEntry "05_SpecialEffects" b5 ++ optEntry "06_Audio" b6

/-- The `total_package` MasterRecord; `os.path.abspath` is modelled as the
identity on the given root string, and `datetime.now()` as the explicit
`timestamp` argument. -/
def mkTotalPackage (project_name asset_save_root timestamp : String)
    (b1 b2 b3 b4 b5 b6 : Option Dict) : Dict :=
  [("project_info",
    .jobj [("name", .jstr project_name),
           ("root", .jstr (joinPath asset_save_root project_name)),
           ("timestamp", .jstr timestamp)]),
   ("settings", .jobj (mkSettings b1 b2 b3 b4 b5 b6))]

/-- The per-invocation archive file name `f"{timestamp}_{project_name}.json"`. -/
def archiveFileName (timestamp project_name : String) : String :=
  timestamp ++ "_" ++ project_name ++ ".json"

/-- The line appended to `archiving_list.txt`. -/
def archiveLine (timestamp project_name : String) : String :=
  "[" ++ timestamp ++ "] PROJ: " ++ project_name ++ " | FILE: " ++
  archiveFileName timestamp project_name

/-- One invocation of the Master Controller, with `datetime.now()` reified
as the `timestamp` field. -/
structure MasterInv where
  projectName : String
  assetRoot : String
  archiveRoot : String
  channel : String
  timestamp : String
  b1 : Option Dict
  b2 : Option Dict
  b3 : Option Dict
  b4 : Option Dict
  b5 : Option Dict
  b6 : Option Dict

/-- Archive side effects shared by both controller variants: append one line
to `<archive_root>/archiving_list.txt` and freshly write
`<archive_root>/archive_dictionary/<timestamp>_<project>.json`. -/
def archiveWrite (inv : MasterInv) (fs : ArchiveFS) : ArchiveFS :=
  let fname := archiveFileName inv.timestamp inv.projectName
  ⟨fs.listLines ++
     [(joinPath inv.archiveRoot "archiving_list.txt",
       archiveLine inv.timestamp inv.projectName)],
   upsertFile fs.files
     (joinPath inv.archiveRoot (joinPath "archive_dictionary" fname))
     (mkTotalPackage inv.projectName inv.assetRoot inv.timestamp
        inv.b1 inv.b2 inv.b3 inv.b4 inv.b5 inv.b6)⟩

/-- `ProjectMasterController.execute_management` of `Master_Slave.py`:
builds the package, archives it and registers it on `INTERNAL_PROJECT_BUS`
under `CHANNEL` (directory creation for the six category folders is an
idempotent side effect not tracked here). -/
def execute_management (inv : MasterInv) (s : ArchiveFS × Store) :
    ArchiveFS × Store :=
  let pkg := mkTotalPackage inv.projectName inv.assetRoot inv.timestamp
    inv.b1 inv.b2 inv.b3 inv.b4 inv.b5 inv.b6
  (archiveWrite inv s.1,
   fun key => if key = inv.channel then some pkg else s.2 key)

/-- A sequence of Master Controller invocations. -/
def runMasters (invs : List MasterInv) (s : ArchiveFS × Store) :
    ArchiveFS × Store :=
  invs.foldl (fun acc inv => execute_management inv acc) s

/-- The full path of the archive file an invocation writes. -/
def invFileKey (inv : MasterInv) : String :=
  joinPath inv.archiveRoot
    (joinPath "archive_dictionary" (archiveFileName inv.timestamp inv.projectName))

/-- The `(path, line)` entry an invocation appends to its archiving list. -/
def invListEntry (inv : MasterInv) : String × String :=
  (joinPath inv.archiveRoot "archiving_list.txt",
   archiveLine inv.timestamp inv.projectName)

/-! ### `SlaveDistributor.distribute` (`Master_Slave.py`) -/

/-- Python `dict.copy()` / use of a value as a dict; a non-dict raises. -/
def pyAsDict (v : JValue) : Except String Dict :=
  match v with
  | .jobj kvs => .ok kvs
  | _ => .error "AttributeError"

/-- The `root` rewrite `integrated_dict["root"] =
os.path.join(integrated_dict["root"], key)`, executed only when `"root"` is a
key; `os.path.join` on a non-string raises. -/
def updateRoot (d : Dict) (key : String) : Except String Dict :=
  match jlookup d "root" with
  | none => .ok d
  | some (.jstr s) => .ok (dictSet d "root" (.jstr (joinPath s key)))
  | some _ => .error "TypeError"

/-- The archive file system seen by the slave: `some (some d)` is a readable
file parsing to `d`, `some none` a file whose read or parse raises (logged,
leaving `data` unset), `none` a missing file. -/
def ArchiveFiles := String → Option (Option Dict)

/-- `SlaveDistributor.distribute`, exactly as written.  The body that was
meant to run on every loop iteration is indented at function level in the
source, so after the `for i in range(6)` loop only the final iteration's
`integrated_dict`/`key` (category `06_Audio`) survive, a single dict is
appended to `output_list`, and the six-element return indexes
`output_list[1]` out of range. -/
def distribute (CHANNEL reference_mode archive_file_path : String)
    (archive : ArchiveFiles) (bus : Store) :
    Except String (Dict × Dict × Dict × Dict × Dict × Dict) :=
  let dataFromArchive : Option Dict :=
    if reference_mode = "Archive" then
      match archive archive_file_path with
      | some (some d) => some d
      | some none => none
      | none => none
    else none
  let data : Option Dict :=
    match dataFromArchive with
    | some d => some d
    | none => bus CHANNEL
  match data with
  | none => .ok ([], [], [], [], [], [])
  | some d =>
      if d.isEmpty then .ok ([], [], [], [], [], [])
      else do
        let project_info ← pyAsDict (dgetD d "project_info" (.jobj []))
        let settings := dgetD d "settings" (.jobj [])
        let key := "06_Audio"
        let integrated1 ← updateRoot project_info key
        let category_data ← pyGetD settings key (.jobj [])
        let integrated2 ←
          if jtruthy category_data then
            (pyAsDict category_data).map (dictUpdate integrated1)
          else .ok integrated1
        let output_list := [integrated2]
        match output_list with
        | x0 :: x1 :: x2 :: x3 :: x4 :: x5 :: _ => .ok (x0, x1, x2, x3, x4, x5)
        | _ => .error "IndexError"

/-! ### `Sender_Node.py` (cache-file variant with checksums) -/

/-- Character-wise string transformation (Python `str` translation). -/
def strMap (f : Char → Char) (s : String) : String :=
  String.mk (s.data.map f)

/-- Python `s.startswith(p)`. -/
def strStartsWith (s p : String) : Bool :=
  p.data.isPrefixOf s.data

/-- Python `s.endswith(p)`. -/
def strEndsWith (s p : String) : Bool :=
  p.data.isSuffixOf s.data

/-- Python `s.upper()` (over the ASCII names appearing here). -/
def strUpper (s : String) : String :=
  strMap Char.toUpper s

/-- The channel-to-file-name sanitisation
`channel.replace("/", "_").replace("\\", "_")`. -/
def channelSafe (channel : String) : String :=
  strMap (fun c => if c = '/' || c = '\\' then '_' else c) channel

/-- `SenderNode._generate_checksum`: SHA-256 hex digest of
`json.dumps(data, sort_keys=True, ensure_ascii=False)`. -/
def generate_checksum (data : JValue) : String :=
  sha256Hex (dumpsSorted data)

/-- `self.config["max_payload_size"]`. -/
def max_payload_size : Nat := 104857600

/-- `len(json.dumps(master_data).encode())`. -/
def payloadSize (master_data : JValue) : Nat :=
  (strBytes (dumpsAscii master_data)).length

/-- `SenderNode.validate_inputs` (the `isinstance(channel, str)` test is
discharged by the typing of `channel`). -/
def sender_validate_inputs (master_data : JValue) (channel : String) :
    Bool × String :=
  match master_data with
  | .jobj md =>
      if (jlookup md "project_info").isNone then
        (false, "❌ MASTER_DATA에 project_info가 없습니다")
      else if (jlookup md "categories").isNone then
        (false, "❌ MASTER_DATA에 categories가 없습니다")
      else if channel.trim = "" then
        (false, "❌ CHANNEL 이름이 비어있습니다")
      else if max_payload_size < payloadSize master_data then
        (false, "❌ 페이로드 크기 초과: " ++ toString (payloadSize master_data) ++
                " > " ++ toString max_payload_size)
      else (true, "✅ 입력 검증 완료")
  | _ => (false, "❌ MASTER_DATA는 dict 타입이어야 합니다")

/-- `SenderNode._pack_data` (checksums enabled in `self.config`);
`datetime.now().timestamp()` is the explicit `ts` argument. -/
def pack_data (master_data : JValue) (channel : String) (ts : Int) : Dict :=
  [("metadata",
    .jobj [("channel", .jstr channel),
           ("sender", .jstr "Sender Node (Channel-based Data Transmission) v1.2"),
           ("timestamp", .jint ts),
           ("format", .jstr "json"),
           ("checksum", .jstr (generate_checksum master_data))]),
   ("payload", master_data)]

/-- The sender-side channel cache directory `.cache/channels` as a map from
file name to parsed content. -/
structure SenderCache where
  latest : String → Option Dict
  backup : String → Option Dict

/-- `SenderNode._save_to_cache` (cache enabled in `self.config`): rotate any
existing `<channel>_latest.json` to `<channel>_backup.json`, then freshly
write the new envelope. -/
def save_to_cache (channel : String) (packed : Dict) (cache : SenderCache) :
    (Bool × String) × SenderCache :=
  let safe := channelSafe channel
  let lf := safe ++ "_latest.json"
  let rotated : SenderCache :=
    match cache.latest lf with
    | some old =>
        ⟨cache.latest, fun key => if key = safe ++ "_backup.json" then some old
                                  else cache.backup key⟩
    | none => cache
  ((true, "✅ 캐시 저장 완료: " ++ lf),
   ⟨fun key => if key = lf then some packed else rotated.latest key,
    rotated.backup⟩)

/-- `SenderNode.execute`: validate, pack, save; on validation failure the
FAILED result is returned before anything is packed or written. -/
def sender_execute (MASTER_DATA : JValue) (CHANNEL : String) (ts : Int)
    (cache : SenderCache) : Dict × SenderCache :=
  let v := sender_validate_inputs MASTER_DATA CHANNEL
  if v.1 = false then
    ([("STATUS", .jstr "FAILED"), ("MESSAGE", .jstr v.2),
      ("TIMESTAMP", .jint ts), ("CHECKSUM", .jstr "")], cache)
  else
    let packed := pack_data MASTER_DATA CHANNEL ts
    let saved := save_to_cache CHANNEL packed cache
    if saved.1.1 = false then
      ([("STATUS", .jstr "FAILED"), ("MESSAGE", .jstr saved.1.2),
        ("TIMESTAMP", .jint ts),
        ("CHECKSUM", .jstr (generate_checksum MASTER_DATA))], saved.2)
    else
      ([("STATUS", .jstr "SUCCESS"),
        ("MESSAGE", .jstr ("✅ 채널 \x27" ++ CHANNEL ++ "\x27으로 데이터 전송 완료")),
        ("TIMESTAMP", .jint ts),
        ("CHECKSUM", .jstr (generate_checksum MASTER_DATA))], saved.2)

/-! ### `Receiver_Node.py` (cache-file variant) -/

/-- `f"{i:02d}_"` for the category indices `1..9` scanned by the receiver. -/
def pad2 (i : Nat) : String :=
  (if i < 10 then "0" else "") ++ toString i

/-- `ReceiverNode._load_categories_dynamically`, as a function of the node
directory listing (`(entry name, is_dir)` pairs): for each `i` in `1..9` pick
the first directory entry named `0i_*`; fall back to the six fixed defaults
when nothing is found. -/
def load_categories (entries : List (String × Bool)) : List (Nat × String) :=
  let found :=
    (List.range 9).foldr
      (fun i acc =>
        match entries.find? (fun e => e.2 && strStartsWith e.1 (pad2 (i + 1) ++ "_")) with
        | some e => (i + 1, e.1) :: acc
        | none => acc) []
  if found.isEmpty then
    [(1, "01_Background"), (2, "02_Equipment"), (3, "03_Character"),
     (4, "04_Structure"), (5, "05_SpecialEffects"), (6, "06_Audio")]
  else found

/-- The directory containing `Receiver_Node.py` at runtime: the repository
root, whose only initial subdirectory is `01_Background`, after
`initialize_modular_infra()` in `__init__.py` has created the `setting`
folders of all six categories (it runs `os.makedirs` for every category at
module load time, before the host instantiates the receiver). -/
def nodeDirListing : List (String × Bool) :=
  [("01_Background", true), ("02_Equipment", true), ("03_Character", true),
   ("04_Structure", true), ("05_SpecialEffects", true), ("06_Audio", true),
   ("__init__.py", false), ("Master_Slave.py", false),
   ("Project_Master_Controller.py", false), ("Receiver_Node.py", false),
   ("Sender_Node.py", false), ("channel.py", false),
   ("global_channels.py", false)]

/-- The socket name
`f"{cat_num}_{cat_name.replace('_', ' ').split(' ', 1)[1].upper()}"`;
indexing `[1]` raises when the category name contains no underscore. -/
def socketName (catNum : Nat) (catName : String) : Except String String :=
  let repl := strMap (fun c => if c = '_' then ' ' else c) catName
  match repl.data.dropWhile (fun c => c ≠ ' ') with
  | [] => .error "IndexError"
  | _ :: rest => .ok (toString catNum ++ "_" ++ strUpper (String.mk rest))

/-- `ReceiverNode._create_error_output`: empty `PROJECT_INFO`, one empty dict
per scanned category socket, `STATUS="FAILED"` and the message. -/
def create_error_output (cats : List (Nat × String)) (message : String) :
    Except String Dict := do
  let sockets ← cats.mapM (fun p => (socketName p.1 p.2).map
    (fun s => (s, JValue.jobj [])))
  .ok ([("PROJECT_INFO", .jobj [])] ++ sockets ++
       [("STATUS", .jstr "FAILED"), ("MESSAGE", .jstr message)])

/-- `ReceiverNode.validate_inputs` (the `isinstance` checks are discharged by
typing; `CATEGORY_FILTER` is already validated non-negative, so it is carried
as a `Nat`). -/
def receiver_validate_inputs (cats : List (Nat × String)) (channel : String)
    (category_filter : Nat) : Bool × String :=
  if channel.trim = "" then
    (false, "❌ CHANNEL은 비어있지 않은 문자열이어야 합니다")
  else if (cats.map Prod.fst).foldl max 0 < category_filter then
    (false, "❌ CATEGORY_FILTER는 0~" ++
            toString ((cats.map Prod.fst).foldl max 0) ++ " 범위여야 합니다")
  else (true, "✅ 입력 검증 완료")

/-- `ReceiverNode._verify_checksum` (validation enabled in `self.config`). -/
def verify_checksum (data : JValue) (checksum : String) : Bool × String :=
  if sha256Hex (dumpsSorted data) = checksum then (true, "✅ 체크섬 일치")
  else (false, "❌ 체크섬 불일치")

/-- `ReceiverNode._unpack_data` (checksums enabled): its internal
`try/except` turns any raised error into a failure triple, so the function is
total.  A non-dict `metadata` raises at `metadata.get` and is caught; a
non-string stored checksum compares unequal to the recomputed hex digest. -/
def unpack_data (packed : Dict) : Bool × String × Option JValue :=
  let metadata := dgetD packed "metadata" (.jobj [])
  let payload := jlookup packed "payload"
  match payload with
  | none => (false, "❌ 페이로드가 없습니다", none)
  | some p =>
      if jtruthy p = false then (false, "❌ 페이로드가 없습니다", none)
      else
        match metadata with
        | .jobj md =>
            match dgetD md "checksum" (.jstr "") with
            | .jstr c =>
                let v := verify_checksum p c
                if v.1 then (true, "✅ 언팩 완료", some p)
                else (false, v.2, none)
            | _ => (false, "❌ 체크섬 불일치", none)
        | _ => (false, "❌ 언팩 실패: AttributeError", none)

/-- `ReceiverNode._extract_project_info`; `datetime.now().timestamp()` is the
explicit `nowTs` argument. -/
def extract_project_info (master_data : JValue) (nowTs : Int) :
    Except String Dict := do
  let pi ← pyGetD master_data "project_info" (.jobj [])
  match pi with
  | .jobj p =>
      .ok [("name", dgetD p "name" (.jstr "Unknown")),
           ("asset_path", dgetD p "asset_path" (.jstr "")),
           ("description", dgetD p "description" (.jstr "")),
           ("version", dgetD p "version" (.jstr "1.0")),
           ("timestamp", .jint nowTs)]
  | _ => .error "AttributeError"

/-- `ReceiverNode._extract_categories`. -/
def extract_categories (cats : List (Nat × String)) (master_data : JValue)
    (category_filter : Nat) : Except String (List (Nat × JValue)) := do
  let cd ← pyGetD master_data "categories" (.jobj [])
  match cd with
  | .jobj c =>
      let toExtract :=
        if category_filter = 0 then cats.map Prod.fst
        else if (cats.map Prod.fst).contains category_filter then [category_filter]
        else []
      .ok (toExtract.map (fun n =>
        (n, dgetD c ((cats.find? (fun p => p.1 = n)).map Prod.snd
              |>.getD (toString n ++ "_Unknown")) (.jobj []))))
  | _ => .error "AttributeError"

/-- The receiver-side channel cache (file name to parsed envelope). -/
def RecvCache := String → Option Dict

/-- `ReceiverNode.execute`: validate, load `<channel>_latest.json` from the
cache, unpack with checksum verification, then assemble the output dict;
every failure path goes through `_create_error_output`. -/
def receiver_execute (cats : List (Nat × String)) (CHANNEL : String)
    (CATEGORY_FILTER : Nat) (nowTs : Int) (cache : RecvCache) :
    Except String Dict :=
  let v := receiver_validate_inputs cats CHANNEL CATEGORY_FILTER
  if v.1 = false then create_error_output cats v.2
  else
    match cache (channelSafe CHANNEL ++ "_latest.json") with
    | none =>
        create_error_output cats
          ("❌ 채널 \x27" ++ CHANNEL ++ "\x27에 데이터가 없습니다")
    | some packed =>
        let u := unpack_data packed
        match u.2.2 with
        | none => create_error_output cats u.2.1
        | some master => do
            let pinfo ← extract_project_info master nowTs
            let extracted ← extract_categories cats master CATEGORY_FILTER
            let sockets ← cats.mapM (fun p => (socketName p.1 p.2).map
              (fun s => (s,
                ((extracted.find? (fun q => q.1 = p.1)).map Prod.snd).getD
                  (.jobj []))))
            .ok ([("PROJECT_INFO", .jobj pinfo)] ++ sockets ++
                 [("STATUS", .jstr "SUCCESS"),
                  ("MESSAGE", .jstr ("✅ 채널 \x27" ++ CHANNEL ++
                    "\x27에서 데이터 수신 완료 (" ++
                    toString extracted.length ++ " 카테고리)"))])

/-! ### `01_Background/01_Background_Setting_Node.py` -/

/-- What the node finds on disk for one listed parameter: the folder listing
(`none` when the folder does not exist) and the `config.json` state —
`none` when the file does not exist, `some none` when `json.load` or the
processing inside the surrounding `try` raises, `some (some c)` when it
parses and `json.load(f).get(key, {})` yields the dict `c`. -/
structure ParamInfo where
  folderEntries : Option (List String)
  config : Option (Option Dict)

/-- One synthesised input widget. -/
inductive WidgetSpec where
  | wfloat (dflt mn mx step : JValue)
  | wint (dflt mn mx : JValue)
  | wstringW (dflt : JValue)
  | wcombo (options : JValue)

/-- The error-marker option input `(["config_error"],)`. -/
def errorMarker : WidgetSpec := .wcombo (.jarr [.jstr "config_error"])

/-- The widget synthesised for one listed parameter, mirroring the per-key
body of `BackgroundSettingNode.INPUT_TYPES` (the `str(val)` conversions keep
the value; no claim depends on Python string rendering). -/
def widgetFor (info : ParamInfo) : WidgetSpec :=
  let sub_items :=
    match info.folderEntries with
    | some l => l.filter (fun (d : String) => !strEndsWith d ".json" && !strEndsWith d ".txt")
    | none => []
  match info.config with
  | some none => errorMarker
  | some (some c) =>
      let wtype := dgetD c "type" (.jstr "combo")
      let val := dgetD c "value" (.jstr "none")
      if jeqStr wtype "float" then
        .wfloat val (dgetD c "min" (.jfloat "0.0")) (dgetD c "max" (.jfloat "1.0"))
          (dgetD c "step" (.jfloat "0.01"))
      else if jeqStr wtype "int" then
        .wint val (dgetD c "min" (.jint 0)) (dgetD c "max" (.jint 100))
      else if jeqStr wtype "string" then .wstringW val
      else
        let options := dgetD c "options" (.jarr (sub_items.map .jstr))
        if jtruthy options then .wcombo options else .wstringW val
  | none =>
      if sub_items.isEmpty then .wstringW (.jstr "none")
      else .wcombo (.jarr (sub_items.map .jstr))

/-- Assignment into the `required_inputs` dict. -/
def widgetSet : List (String × WidgetSpec) → String → WidgetSpec →
    List (String × WidgetSpec)
  | [], k, w => [(k, w)]
  | (k0, w0) :: rest, k, w =>
      if k0 = k then (k, w) :: rest else (k0, w0) :: widgetSet rest k w

/-- Lookup in the `required_inputs` dict. -/
def widgetLookup : List (String × WidgetSpec) → String → Option WidgetSpec
  | [], _ => none
  | (k0, w0) :: rest, k => if k0 = k then some w0 else widgetLookup rest k

/-- `BackgroundSettingNode.INPUT_TYPES`: start from the fixed `mode` widget,
then process each parameter listed in `order_list.txt` in order; `ui_keys`
carries the stripped, NFC-normalised lines and `dirs` the on-disk state per
parameter. -/
def input_types (ui_keys : List String) (dirs : String → ParamInfo) :
    List (String × WidgetSpec) :=
  ui_keys.foldl (fun acc key => widgetSet acc key (widgetFor (dirs key)))
    [("mode", .wcombo (.jarr [.jstr "Standard", .jstr "Variant", .jstr "Draft"]))]

/-! ### Auxiliary definitions used by the verification -/

/-- Strict key order on serialised object entries. -/
def keyLt (a b : String × String) : Prop := a.1 < b.1

instance : IsAntisymm (String × String) keyLt :=
  ⟨fun _ _ h1 h2 => absurd h1 (lt_asymm h2)⟩

/-- A Master Controller invocation used as concrete test data (the §8
scenario of the specification). -/
def invDemo : MasterInv :=
  ⟨"DEMO", "output/Asset_Library", "output/Archive_Data", "MASTER_CH",
   "20240101_000000", some [("prompt", .jstr "sunset")],
   none, none, none, none, none⟩

/-- The same invocation one second later. -/
def invDemo2 : MasterInv :=
  ⟨"DEMO", "output/Asset_Library", "output/Archive_Data", "MASTER_CH",
   "20240101_000001", some [("prompt", .jstr "sunset")],
   none, none, none, none, none⟩

/-- The MasterRecord the Master Controller aggregates in the §8 scenario:
keys `project_info` and `settings`. -/
def demoPackage : Dict :=
  mkTotalPackage "DEMO" "output/Asset_Library" "20240101_000000"
    (some [("prompt", .jstr "sunset")]) none none none none none

/-! ### Shared lemmas -/

theorem set_channel_data_same (bus : ChannelBus) (c : String) (d : Dict) :
    set_channel_data bus c d c = some d := by
  simp [set_channel_data]

theorem applyOp_no_set (bus : ChannelBus) (c : String) (op : BusOp)
    (h : isSetOn c op = false) : applyOp bus op c = bus c := by
  cases op with
  | setOp c2 d =>
      simp only [isSetOn, decide_eq_false_iff_not] at h
      show (if c = c2 then some d else bus c) = bus c
      exact if_neg (fun hcc => h hcc.symm)
  | getOp c2 => simp [applyOp, get_channel_data]

theorem runOps_no_set (c : String) (ops : List BusOp) :
    ∀ bus : ChannelBus, (∀ op ∈ ops, isSetOn c op = false) →
      runOps bus ops c = bus c := by
  induction ops with
  | nil => intro bus _; simp [runOps]
  | cons op rest ih =>
      intro bus h
      have h0 := h op (List.mem_cons_self op rest)
      have hr : runOps bus (op :: rest) = runOps (applyOp bus op) rest := rfl
      rw [hr, ih (applyOp bus op) (fun o ho => h o (List.mem_cons_of_mem op ho)),
          applyOp_no_set bus c op h0]

/-- C2: on the channel bus, `get(C)` after `set(C, R)` returns `R` and keeps
returning `R` across any further operations none of which sets `C`; after
`set(C, R1); set(C, R2)` a `get(C)` returns `R2` (last-write-wins). -/
theorem bus_get_after_set_and_last_write_wins (bus : ChannelBus) (C : String)
    (R R1 R2 : Dict) (ops : List BusOp)
    (hops : ∀ op ∈ ops, isSetOn C op = false) :
    (get_channel_data (runOps (set_channel_data bus C R) ops) C).1 = some R ∧
    (get_channel_data
      (set_channel_data (set_channel_data bus C R1) C R2) C).1 = some R2 := by
  constructor
  · show runOps (set_channel_data bus C R) ops C = some R
    rw [runOps_no_set C ops (set_channel_data bus C R) hops,
        set_channel_data_same]
  · show set_channel_data (set_channel_data bus C R1) C R2 C = some R2
    rw [set_channel_data_same]

/-- Witness for C2 at a concrete store, channel, records and operation
sequence (a write to another channel followed by a read). -/
theorem bus_get_after_set_and_last_write_wins_witness :
    (∀ op ∈ [BusOp.setOp "OTHER" [], BusOp.getOp "MASTER_CH"],
        isSetOn "MASTER_CH" op = false) ∧
    ((get_channel_data
        (runOps (set_channel_data (fun _ => none) "MASTER_CH" [("k", .jstr "v")])
          [BusOp.setOp "OTHER" [], BusOp.getOp "MASTER_CH"]) "MASTER_CH").1 =
      some [("k", .jstr "v")] ∧
     (get_channel_data
        (set_channel_data (set_channel_data (fun _ => none) "MASTER_CH"
          [("a", .jnull)]) "MASTER_CH" [("b", .jnull)]) "MASTER_CH").1 =
      some [("b", .jnull)]) :=
  ⟨by decide,
   bus_get_after_set_and_last_write_wins (fun _ => none) "MASTER_CH"
     [("k", .jstr "v")] [("a", .jnull)] [("b", .jnull)]
     [BusOp.setOp "OTHER" [], BusOp.getOp "MASTER_CH"] (by decide)⟩

/-- C10: setting one channel leaves every other channel unchanged, and
`get_channel_data` leaves the store exactly as it found it. -/
theorem bus_frame_property (bus : ChannelBus) (C C2 : String) (V : Dict)
    (h : C ≠ C2) :
    (get_channel_data (set_channel_data bus C V) C2).1 =
      (get_channel_data bus C2).1 ∧
    (get_channel_data bus C2).2 = bus := by
  refine ⟨?_, rfl⟩
  show (if C2 = C then some V else bus C2) = bus C2
  exact if_neg (fun hc => h hc.symm)

/-- Witness for C10 at two concrete distinct channels. -/
theorem bus_frame_property_witness :
    "CH_A" ≠ "CH_B" ∧
    ((get_channel_data (set_channel_data (fun _ => none) "CH_A"
        [("x", .jint 1)]) "CH_B").1 =
      (get_channel_data (fun _ => none) "CH_B").1 ∧
     (get_channel_data (fun (_ : String) => (none : Option Dict)) "CH_B").2 =
      fun _ => none) :=
  ⟨by decide, bus_frame_property (fun _ => none) "CH_A" "CH_B"
    [("x", .jint 1)] (by decide)⟩

/-- C8: on the channel-variant pair, transmitting an empty (falsy) dict on a
channel makes reception return exactly the all-empty `"NONE"` output that a
never-set channel produces — presence is tested by truthiness, not by key
membership. -/
theorem empty_record_like_absent_channel (st st2 : Store) (C : String)
    (h : st2 C = none) :
    execute_reception C (execute_transmission [] C st).2 = .ok noneRecvOutput ∧
    execute_reception C st2 = .ok noneRecvOutput := by
  constructor
  · show execute_reception C (fun key => if key = C then some [] else st key) =
      .ok noneRecvOutput
    simp [execute_reception]
  · simp [execute_reception, h]

/-- Witness for C8 at a concrete store and channel. -/
theorem empty_record_like_absent_channel_witness :
    ((fun (_ : String) => (none : Option Dict)) "MASTER_CH" = none) ∧
    (execute_reception "MASTER_CH"
        (execute_transmission [] "MASTER_CH" (fun _ => none)).2 =
      .ok noneRecvOutput ∧
     execute_reception "MASTER_CH" (fun _ => none) = .ok noneRecvOutput) :=
  ⟨rfl, empty_record_like_absent_channel (fun _ => none) (fun _ => none)
    "MASTER_CH" rfl⟩


theorem execute_reception_congr (C C2 : String) (st st2 : Store)
    (h : st C = st2 C2) : execute_reception C st = execute_reception C2 st2 := by
  unfold execute_reception
  rw [h]

/-- C1: aggregation followed by the channel-variant decomposition restores
each supplied category record exactly (an empty record for each absent
category, outputs in the fixed declared order), while
`SlaveDistributor.distribute` as written raises `IndexError` on the very
record the Master Controller publishes, because the body meant for its
`for i in range(6)` loop is indented outside the loop and `output_list`
ends up with a single element. -/
theorem roundtrip_exact_and_distribute_raises :
    (∀ (pn ar ts C : String) (b1 b2 b3 b4 b5 b6 : Option Dict) (st : Store),
      execute_reception C
        (execute_transmission (mkTotalPackage pn ar ts b1 b2 b3 b4 b5 b6) C st).2 =
      .ok ⟨.jobj (b1.getD []), .jobj (b2.getD []), .jobj (b3.getD []),
           .jobj (b4.getD []), .jobj (b5.getD []), .jobj (b6.getD []),
           .jobj [("name", .jstr pn), ("root", .jstr (joinPath ar pn)),
                  ("timestamp", .jstr ts)],
           .jstr pn, .jstr (joinPath ar pn)⟩) ∧
    distribute "MASTER_CH" "Channel" "path" (fun _ => none)
      (fun c => if c = "MASTER_CH" then some demoPackage else none) =
      .error "IndexError" := by
  constructor
  · intro pn ar ts C b1 b2 b3 b4 b5 b6 st
    rw [execute_reception_congr C "CH"
      (execute_transmission (mkTotalPackage pn ar ts b1 b2 b3 b4 b5 b6) C st).2
      (fun _ => some (mkTotalPackage pn ar ts b1 b2 b3 b4 b5 b6))
      (by show (if C = C then _ else _) = _; rw [if_pos rfl])]
    cases b1 <;> cases b2 <;> cases b3 <;> cases b4 <;> cases b5 <;> cases b6 <;> rfl
  · rfl


theorem create_error_output_sixfold (m : String) :
    create_error_output (load_categories nodeDirListing) m =
      .ok [("PROJECT_INFO", .jobj []),
           ("1_BACKGROUND", .jobj []), ("2_EQUIPMENT", .jobj []),
           ("3_CHARACTER", .jobj []), ("4_STRUCTURE", .jobj []),
           ("5_SPECIALEFFECTS", .jobj []), ("6_AUDIO", .jobj []),
           ("STATUS", .jstr "FAILED"), ("MESSAGE", .jstr m)] := rfl

/-- C5: reading a channel that was never set raises no exception and returns
only empty data: the channel-variant Receiver returns six empty category
records (plus empty project info and the `"NONE"` strings), and the
cache-variant Receiver — whose runtime directory scan finds the six category
folders created by `initialize_modular_infra()` at import time — returns an
output with six empty category sockets and `STATUS = "FAILED"`. -/
theorem absent_channel_yields_empty_outputs (C ch : String) (cf : Nat)
    (ts : Int) (st : Store) (cache : RecvCache)
    (h1 : st C = none)
    (h2 : cache (channelSafe ch ++ "_latest.json") = none) :
    execute_reception C st = .ok noneRecvOutput ∧
    ∃ m, receiver_execute (load_categories nodeDirListing) ch cf ts cache =
      .ok [("PROJECT_INFO", .jobj []),
           ("1_BACKGROUND", .jobj []), ("2_EQUIPMENT", .jobj []),
           ("3_CHARACTER", .jobj []), ("4_STRUCTURE", .jobj []),
           ("5_SPECIALEFFECTS", .jobj []), ("6_AUDIO", .jobj []),
           ("STATUS", .jstr "FAILED"), ("MESSAGE", .jstr m)] := by
  constructor
  · unfold execute_reception
    rw [h1]
  · unfold receiver_execute
    cases hvv : (receiver_validate_inputs (load_categories nodeDirListing) ch cf).1
    · refine ⟨(receiver_validate_inputs (load_categories nodeDirListing) ch cf).2, ?_⟩
      rw [if_pos hvv, create_error_output_sixfold]
    · refine ⟨"❌ 채널 \x27" ++ ch ++ "\x27에 데이터가 없습니다", ?_⟩
      rw [if_neg (by simp [hvv]), h2, create_error_output_sixfold]

/-- Witness for C5 at a concrete never-written store and cache. -/
theorem absent_channel_yields_empty_outputs_witness :
    ((fun (_ : String) => (none : Option Dict)) "MASTER_CH" = none) ∧
    ((fun (_ : String) => (none : Option Dict))
        (channelSafe "MASTER_CH" ++ "_latest.json") = none) ∧
    (execute_reception "MASTER_CH" (fun _ => none) = .ok noneRecvOutput ∧
     ∃ m, receiver_execute (load_categories nodeDirListing) "MASTER_CH" 0 0
        (fun _ => none) =
      .ok [("PROJECT_INFO", .jobj []),
           ("1_BACKGROUND", .jobj []), ("2_EQUIPMENT", .jobj []),
           ("3_CHARACTER", .jobj []), ("4_STRUCTURE", .jobj []),
           ("5_SPECIALEFFECTS", .jobj []), ("6_AUDIO", .jobj []),
           ("STATUS", .jstr "FAILED"), ("MESSAGE", .jstr m)]) :=
  ⟨rfl, rfl, absent_channel_yields_empty_outputs "MASTER_CH" "MASTER_CH" 0 0
    (fun _ => none) (fun _ => none) rfl rfl⟩

theorem sender_validate_true_iff (master : JValue) (channel : String) :
    (sender_validate_inputs master channel).1 = true ↔
    ∃ md, master = .jobj md ∧ (jlookup md "project_info").isSome ∧
      (jlookup md "categories").isSome ∧ channel.trim ≠ "" ∧
      payloadSize master ≤ max_payload_size := by
  cases master <;> simp [sender_validate_inputs]
  case jobj md =>
    split_ifs with h1 h2 h3 h4 <;>
      simp_all [Option.isNone_iff_eq_none, Option.isSome_iff_exists, Nat.not_lt,
        Nat.not_le, ← Option.ne_none_iff_exists']

/-- C4 (amended): the Sender returns a FAILED status and leaves the channel
cache untouched exactly when the master data is not a dict, or lacks the
top-level key `project_info`, or lacks the top-level key `categories`
(not `settings`), or the channel name is empty after stripping, or the
default-serialised payload exceeds 104857600 bytes. -/
theorem sender_failed_iff (master : JValue) (channel : String) (ts : Int)
    (cache : SenderCache) :
    (jlookup (sender_execute master channel ts cache).1 "STATUS" =
        some (.jstr "FAILED") ∧
     (sender_execute master channel ts cache).2 = cache) ↔
    ¬ ∃ md, master = .jobj md ∧ (jlookup md "project_info").isSome ∧
        (jlookup md "categories").isSome ∧ channel.trim ≠ "" ∧
        payloadSize master ≤ max_payload_size := by
  rw [← sender_validate_true_iff master channel]
  unfold sender_execute
  cases hvv : (sender_validate_inputs master channel).1 with
  | false => simp [hvv, jlookup]
  | true => simp [hvv, jlookup, save_to_cache]

/-- C4 counterexample: the MasterRecord the Master Controller actually
produces (top-level keys `project_info` and `settings`) does NOT pass the
Sender validation — the code demands a `categories` key — so its
transmission fails. -/
theorem sender_rejects_master_record :
    sender_validate_inputs (.jobj demoPackage) "MASTER_CH" =
      (false, "❌ MASTER_DATA에 categories가 없습니다") ∧
    jlookup (sender_execute (.jobj demoPackage) "MASTER_CH" 0
        ⟨fun _ => none, fun _ => none⟩).1 "STATUS" = some (.jstr "FAILED") :=
  ⟨rfl, rfl⟩

theorem upsertFile_fresh (files : List (String × Dict)) (k : String) (c : Dict)
    (h : k ∉ files.map Prod.fst) :
    (upsertFile files k c).length = files.length + 1 ∧
    (upsertFile files k c).map Prod.fst = files.map Prod.fst ++ [k] := by
  induction files with
  | nil => simp [upsertFile]
  | cons p rest ih =>
      simp only [List.map_cons, List.mem_cons] at h
      push_neg at h
      obtain ⟨h1, h2⟩ := h
      have hrec := ih h2
      have hne : ¬ p.1 = k := fun he => h1 he.symm
      simp [upsertFile, hne, hrec.1, hrec.2]

/-- C6 (amended): N Master Controller invocations always append exactly their
N formatted lines, in order, to the archiving lists, and produce N archive
files provided the invocations' archive file paths
(`<archive_root>/archive_dictionary/<timestamp>_<project>.json`) are pairwise
distinct and not already present; an invocation repeating the timestamp and
project name of an earlier one silently overwrites that archive file. -/
theorem archive_append_monotonic (invs : List MasterInv) (s : ArchiveFS × Store)
    (hn : (invs.map invFileKey).Nodup)
    (hf : ∀ k ∈ invs.map invFileKey, k ∉ s.1.files.map Prod.fst) :
    (runMasters invs s).1.listLines = s.1.listLines ++ invs.map invListEntry ∧
    (runMasters invs s).1.files.length = s.1.files.length + invs.length := by
  induction invs generalizing s with
  | nil => simp [runMasters]
  | cons inv rest ih =>
      simp only [List.map_cons, List.nodup_cons] at hn
      obtain ⟨hnotin, hnod⟩ := hn
      have hhead : invFileKey inv ∉ s.1.files.map Prod.fst :=
        hf (invFileKey inv) (by simp)
      have hstep : runMasters (inv :: rest) s =
          runMasters rest (execute_management inv s) := rfl
      have hup := upsertFile_fresh s.1.files (invFileKey inv)
        (mkTotalPackage inv.projectName inv.assetRoot inv.timestamp
          inv.b1 inv.b2 inv.b3 inv.b4 inv.b5 inv.b6) hhead
      have hrest : ∀ k ∈ rest.map invFileKey,
          k ∉ (execute_management inv s).1.files.map Prod.fst := by
        intro k hk
        have hk1 : k ∉ s.1.files.map Prod.fst := hf k (by simp [hk])
        have hk2 : k ≠ invFileKey inv := by
          intro he
          exact hnotin (he ▸ hk)
        show k ∉ (upsertFile s.1.files (invFileKey inv) _).map Prod.fst
        rw [hup.2]
        simp [hk1, hk2]
      have hih := ih (execute_management inv s) hnod hrest
      refine ⟨?_, ?_⟩
      · rw [hstep, hih.1]
        show (s.1.listLines ++ [invListEntry inv]) ++ rest.map invListEntry = _
        simp
      · rw [hstep, hih.2]
        show (upsertFile s.1.files (invFileKey inv) _).length + rest.length = _
        rw [hup.1]
        simp [Nat.add_assoc, Nat.add_comm 1]

/-- Witness for C6 at two concrete invocations one second apart, starting
from an empty archive. -/
theorem archive_append_monotonic_witness :
    (([invDemo, invDemo2].map invFileKey).Nodup ∧
     ∀ k ∈ [invDemo, invDemo2].map invFileKey,
       k ∉ ((⟨[], []⟩, fun _ => none) :
          ArchiveFS × Store).1.files.map Prod.fst) ∧
    ((runMasters [invDemo, invDemo2] (⟨[], []⟩, fun _ => none)).1.listLines =
        [] ++ [invDemo, invDemo2].map invListEntry ∧
     (runMasters [invDemo, invDemo2]
        (⟨[], []⟩, fun _ => none)).1.files.length = 0 + 2) :=
  ⟨⟨by decide, by decide⟩,
   archive_append_monotonic [invDemo, invDemo2] (⟨[], []⟩, fun _ => none)
     (by decide) (by decide)⟩

/-- C6 counterexample: two invocations in the same second with the same
project name append two list lines but leave only ONE archive file — the
second `open(..., "w")` silently overwrites the first — falsifying
"exactly N distinct files, never fewer". -/
theorem archive_overwrite_on_timestamp_collision :
    (runMasters [invDemo, invDemo] (⟨[], []⟩, fun _ => none)).1.files.length
      = 1 ∧
    (runMasters [invDemo, invDemo]
      (⟨[], []⟩, fun _ => none)).1.listLines.length = 2 :=
  ⟨rfl, rfl⟩

theorem widgetLookup_widgetSet_same (acc : List (String × WidgetSpec))
    (k : String) (w : WidgetSpec) :
    widgetLookup (widgetSet acc k w) k = some w := by
  induction acc with
  | nil => simp [widgetSet, widgetLookup]
  | cons p rest ih =>
      by_cases h : p.1 = k
      · simp [widgetSet, widgetLookup, h]
      · simp [widgetSet, widgetLookup, h, ih]

theorem widgetLookup_widgetSet_ne (acc : List (String × WidgetSpec))
    (k k2 : String) (w : WidgetSpec) (h : k ≠ k2) :
    widgetLookup (widgetSet acc k w) k2 = widgetLookup acc k2 := by
  induction acc with
  | nil => simp [widgetSet, widgetLookup, h]
  | cons p rest ih =>
      by_cases hp : p.1 = k
      · simp [widgetSet, widgetLookup, hp, h]
      · simp [widgetSet, widgetLookup, hp, ih]

theorem input_types_foldl_not_mem (dirs : String → ParamInfo)
    (keys : List String) (k : String) (hk : k ∉ keys) :
    ∀ acc, widgetLookup
      (keys.foldl (fun a key => widgetSet a key (widgetFor (dirs key))) acc) k =
      widgetLookup acc k := by
  induction keys with
  | nil => intro acc; rfl
  | cons k0 rest ih =>
      intro acc
      simp only [List.mem_cons] at hk
      push_neg at hk
      rw [List.foldl_cons, ih hk.2, widgetLookup_widgetSet_ne acc k0 k _
        (fun he => hk.1 he.symm)]

theorem input_types_mem (dirs : String → ParamInfo) (keys : List String)
    (k : String) (hk : k ∈ keys) :
    ∀ acc, widgetLookup
      (keys.foldl (fun a key => widgetSet a key (widgetFor (dirs key))) acc) k =
      some (widgetFor (dirs k)) := by
  induction keys with
  | nil => exact absurd hk (List.not_mem_nil k)
  | cons k0 rest ih =>
      intro acc
      rw [List.foldl_cons]
      by_cases hr : k ∈ rest
      · exact ih hr _
      · have hk0 : k = k0 := by
          rcases List.mem_cons.mp hk with h | h
          · exact h
          · exact absurd h hr
        rw [input_types_foldl_not_mem dirs rest k hr, hk0,
          widgetLookup_widgetSet_same]

/-- C7: when the `config.json` of one listed parameter is malformed (its
read, parse or processing raises inside the `try`), the synthesised schema
gives exactly that parameter the `["config_error"]` option input, and every
listed parameter — this one included — still receives its own independently
computed entry: one bad config never aborts the whole schema. -/
theorem malformed_config_degrades_one_param (keys : List String)
    (dirs : String → ParamInfo) (k : String)
    (hk : k ∈ keys) (hm : (dirs k).config = some none) :
    widgetLookup (input_types keys dirs) k = some errorMarker ∧
    ∀ k2 ∈ keys, widgetLookup (input_types keys dirs) k2 =
      some (widgetFor (dirs k2)) := by
  have hall : ∀ k2 ∈ keys, widgetLookup (input_types keys dirs) k2 =
      some (widgetFor (dirs k2)) :=
    fun k2 hk2 => input_types_mem dirs keys k2 hk2 _
  refine ⟨?_, hall⟩
  rw [hall k hk]
  have hw : widgetFor (dirs k) = errorMarker := by
    unfold widgetFor
    rw [hm]
  rw [hw]

/-- Witness for C7: an order list of two parameters where the first has a
malformed config and the second a plain folder. -/
theorem malformed_config_degrades_one_param_witness :
    ("sky" ∈ ["sky", "ground"] ∧
     ((fun k => if k = "sky" then (⟨some ["a.json", "b"], some none⟩ : ParamInfo)
                else ⟨some ["c"], none⟩) "sky").config = some none) ∧
    (widgetLookup (input_types ["sky", "ground"]
        (fun k => if k = "sky" then ⟨some ["a.json", "b"], some none⟩
                  else ⟨some ["c"], none⟩)) "sky" = some errorMarker ∧
     ∀ k2 ∈ ["sky", "ground"],
       widgetLookup (input_types ["sky", "ground"]
          (fun k => if k = "sky" then ⟨some ["a.json", "b"], some none⟩
                    else ⟨some ["c"], none⟩)) k2 =
        some (widgetFor ((fun k => if k = "sky" then
            (⟨some ["a.json", "b"], some none⟩ : ParamInfo)
          else ⟨some ["c"], none⟩) k2))) :=
  ⟨⟨by decide, rfl⟩,
   malformed_config_degrades_one_param ["sky", "ground"]
     (fun k => if k = "sky" then ⟨some ["a.json", "b"], some none⟩
               else ⟨some ["c"], none⟩) "sky" (by decide) rfl⟩

theorem toHex8_length (n : Nat) : (toHex8 n).length = 8 := rfl

theorem sha256Hex_length (s : String) : (sha256Hex s).length = 64 := by
  simp [sha256Hex, String.length_append, toHex8_length]

/-- C3: verifying the Sender-generated checksum against the payload itself
always succeeds, and the Receiver unpack step yields no valid data for any
envelope whose stored checksum string differs from the hash recomputed over
its payload. -/
theorem checksum_roundtrip_and_reject (d pl : JValue) (md : Dict) (c : String)
    (hpl : jtruthy pl = true)
    (hc : dgetD md "checksum" (.jstr "") = .jstr c)
    (hne : c ≠ generate_checksum pl) :
    verify_checksum d (generate_checksum d) = (true, "✅ 체크섬 일치") ∧
    unpack_data [("metadata", .jobj md), ("payload", pl)] =
      (false, "❌ 체크섬 불일치", none) := by
  constructor
  · unfold verify_checksum generate_checksum
    rw [if_pos rfl]
  · have hne2 : ¬ (sha256Hex (dumpsSorted pl) = c) := fun h => hne h.symm
    unfold dgetD at hc
    unfold unpack_data
    simp [hpl, dgetD, jlookup, verify_checksum]
    rw [hc]
    simp [hne2]

/-- Witness for C3: a truthy payload and an empty stored checksum, which can
never equal the 64-character hex digest. -/
theorem checksum_roundtrip_and_reject_witness :
    (jtruthy (.jstr "x") = true ∧
     dgetD [] "checksum" (.jstr "") = .jstr "" ∧
     "" ≠ generate_checksum (.jstr "x")) ∧
    (verify_checksum .jnull (generate_checksum .jnull) =
        (true, "✅ 체크섬 일치") ∧
     unpack_data [("metadata", .jobj []), ("payload", .jstr "x")] =
        (false, "❌ 체크섬 불일치", none)) :=
  ⟨⟨rfl, rfl,
    fun h => absurd (congrArg String.length h)
      (by simp [generate_checksum, sha256Hex_length])⟩,
   checksum_roundtrip_and_reject .jnull (.jstr "x") [] "" rfl rfl
     (fun h => absurd (congrArg String.length h)
       (by simp [generate_checksum, sha256Hex_length]))⟩

theorem serializeP_eq_map (sk a : Bool) (l : List (String × JValue)) :
    serializeP sk a l = l.map (fun kv => (kv.1, serializeV sk a kv.2)) := by
  induction l with
  | nil => simp [serializeP]
  | cons kv rest ih =>
      cases kv with
      | mk k v => simp [serializeP, ih]

theorem insertionSort_perm_nodup_eq (ps qs : List (String × String))
    (hp : ps.Perm qs) (hn : (ps.map Prod.fst).Nodup) :
    List.insertionSort keyLe ps = List.insertionSort keyLe qs := by
  have hs1 := List.sorted_insertionSort keyLe ps
  have hs2 := List.sorted_insertionSort keyLe qs
  have hperm : (List.insertionSort keyLe ps).Perm (List.insertionSort keyLe qs) :=
    (List.perm_insertionSort keyLe ps).trans
      (hp.trans (List.perm_insertionSort keyLe qs).symm)
  have hn1 : ((List.insertionSort keyLe ps).map Prod.fst).Nodup :=
    (((List.perm_insertionSort keyLe ps).map Prod.fst).nodup_iff).mpr hn
  have hnq : (qs.map Prod.fst).Nodup := ((hp.map Prod.fst).nodup_iff).mp hn
  have hn2 : ((List.insertionSort keyLe qs).map Prod.fst).Nodup :=
    (((List.perm_insertionSort keyLe qs).map Prod.fst).nodup_iff).mpr hnq
  have hlt1 : List.Sorted keyLt (List.insertionSort keyLe ps) :=
    (hs1.and (List.pairwise_map.mp hn1)).imp
      (fun h => lt_of_le_of_ne h.1 h.2)
  have hlt2 : List.Sorted keyLt (List.insertionSort keyLe qs) :=
    (hs2.and (List.pairwise_map.mp hn2)).imp
      (fun h => lt_of_le_of_ne h.1 h.2)
  exact List.eq_of_perm_of_sorted hperm hlt1 hlt2

/-- C9: the Sender checksum is insensitive to key insertion order — two
payload objects equal as maps (same keys, same values, any order) serialise
to the same key-sorted canonical string and hash to the same digest, and the
Receiver accepts the reordered payload against the original checksum. -/
theorem checksum_insensitive_to_key_order (l1 l2 : List (String × JValue))
    (hp : l1.Perm l2) (hn : (l1.map Prod.fst).Nodup) :
    generate_checksum (.jobj l1) = generate_checksum (.jobj l2) ∧
    verify_checksum (.jobj l2) (generate_checksum (.jobj l1)) =
      (true, "✅ 체크섬 일치") := by
  have hmap : (serializeP true false l1).Perm (serializeP true false l2) := by
    rw [serializeP_eq_map, serializeP_eq_map]
    exact hp.map _
  have hkeys : ((serializeP true false l1).map Prod.fst).Nodup := by
    rw [serializeP_eq_map]
    simp only [List.map_map]
    exact hn
  have hser : dumpsSorted (.jobj l1) = dumpsSorted (.jobj l2) := by
    unfold dumpsSorted
    simp only [serializeV, sortPairs, if_true]
    rw [insertionSort_perm_nodup_eq _ _ hmap hkeys]
  have hgen : generate_checksum (.jobj l1) = generate_checksum (.jobj l2) := by
    unfold generate_checksum
    rw [hser]
  refine ⟨hgen, ?_⟩
  have hcc : sha256Hex (dumpsSorted (JValue.jobj l2)) =
      generate_checksum (JValue.jobj l1) := by
    show sha256Hex (dumpsSorted (JValue.jobj l2)) =
      sha256Hex (dumpsSorted (JValue.jobj l1))
    rw [hser]
  unfold verify_checksum
  rw [if_pos hcc]

/-- Witness for C9 at a concrete two-key object and its transposition. -/
theorem checksum_insensitive_to_key_order_witness :
    (([("b", JValue.jstr "1"), ("a", JValue.jstr "2")]).Perm
        [("a", JValue.jstr "2"), ("b", JValue.jstr "1")] ∧
     (([("b", JValue.jstr "1"), ("a", JValue.jstr "2")]).map Prod.fst).Nodup) ∧
    (generate_checksum (.jobj [("b", .jstr "1"), ("a", .jstr "2")]) =
        generate_checksum (.jobj [("a", .jstr "2"), ("b", .jstr "1")]) ∧
     verify_checksum (.jobj [("a", .jstr "2"), ("b", .jstr "1")])
        (generate_checksum (.jobj [("b", .jstr "1"), ("a", .jstr "2")])) =
        (true, "✅ 체크섬 일치")) :=
  ⟨⟨List.Perm.swap ("a", JValue.jstr "2") ("b", JValue.jstr "1") [], by decide⟩,
   checksum_insensitive_to_key_order
     [("b", JValue.jstr "1"), ("a", JValue.jstr "2")]
     [("a", JValue.jstr "2"), ("b", JValue.jstr "1")]
     (List.Perm.swap ("a", JValue.jstr "2") ("b", JValue.jstr "1") [])
     (by decide)⟩
